import Mathlib

/-!
Shallow embedding of the fastruments instrument drivers
(`src/fastruments/QLASSdriver.py`, `Qontrol.py`, `TektronixAFG3011C.py`,
`TektronixTBS2204B.py`, `src/src/lf_osw/core.py`).

Conventions of the embedding:
* Python exceptions are values of `PyError` (the exception class only; the
  formatted message text is not modelled, except where a claim is about the
  construction of the message itself).
* Every method that touches the VISA transport returns, besides its result,
  the list of low-level transport operations (`Op`) it performed, in order.
* Python `float` arithmetic is modelled over `ℚ`; `int(x)` is truncation
  toward zero, modelled by `pytrunc`.
* Instrument replies are parameters of the model (fields of a device-state
  structure): the model describes what the driver does for each possible
  reply.
-/

/-- Python exception classes raised by the drivers (message text omitted). -/
inductive PyError where
  | valueError
  | typeError
  | keyError
  | runtimeError
  deriving DecidableEq

/-- One low-level transport operation performed through the pyvisa resource. -/
inductive Op where
  | write (cmd : String)
  | query (cmd : String)
  | flush
  | lowClose
  deriving DecidableEq

/-- Truncation toward zero: the semantics of Python `int()` on a rational. -/
def pytrunc (q : ℚ) : ℤ :=
  if q < 0 then -(Int.floor (-q)) else Int.floor q

theorem pytrunc_of_nonneg (q : ℚ) (h : 0 ≤ q) : pytrunc q = Int.floor q := by
  unfold pytrunc
  rw [if_neg (not_lt.mpr h)]

/-- Python `f"{n:02d}"` for a nonnegative integer below 100. -/
def fmt2 (n : ℤ) : String :=
  if n < 10 ∧ 0 ≤ n then "0" ++ toString n else toString n

/-- Python `str.upper()` on the ASCII strings exchanged with the devices. -/
def pyUpper (s : String) : String :=
  String.mk (s.data.map Char.toUpper)

namespace Qlass

/-- State of a QLASS board as seen through the serial line: the FSR code it
reports in response to the `$F?` query, and its reply to a `$D` command. -/
structure Device where
  fsr : ℤ
  dacResponse : String
  deriving DecidableEq

/-- Dictionary `self.ranges` of `CurrentDriver.connect`: FSR code to current
compliance in mA (`{0: 2.77, 1: 25.0, 2: 47.72}`); total function, keys
outside the dict never get looked up because `range` validates first. -/
def ranges (fsr : ℤ) : ℚ :=
  if fsr = 0 then 277/100
  else if fsr = 1 then 25
  else 4772/100

/-- Transport operations of the `CurrentDriver.range` property: the `$F?`
query followed by `flush_serial`. -/
def rangeOps : List Op := [Op.query "$F?", Op.flush]

/-- Result of the `CurrentDriver.range` property: the compliance for the
reported FSR code, or RuntimeError when the code is not 0, 1 or 2. -/
def rangeResult (dev : Device) : Except PyError ℚ :=
  if dev.fsr = 0 ∨ dev.fsr = 1 ∨ dev.fsr = 2 then Except.ok (ranges dev.fsr)
  else Except.error PyError.runtimeError

/-- DAC encoding performed by `CurrentDriver.set_current`:
`int(val/max_current*(2**16-1))`. -/
def encodeCurrent (maxCurrent : ℚ) (val : ℚ) : ℤ :=
  pytrunc (val / maxCurrent * (2 ^ 16 - 1))

/-- Conversion back to mA performed by `CurrentDriver.set_current_level`:
`int(val*max_current/(2**16-1))`. -/
def decodeLevel (maxCurrent : ℚ) (val : ℤ) : ℤ :=
  pytrunc ((val : ℚ) * maxCurrent / (2 ^ 16 - 1))

/-- Embedding of `CurrentDriver.set_current(ch, val)`: fetches the range
(this queries the board), validates the channel and the value, encodes the
DAC level and sends the `$D` command. Returns the board's reply together
with the transport transcript. -/
def set_current (dev : Device) (ch : ℤ) (val : ℚ) :
    Except PyError String × List Op :=
  match rangeResult dev with
  | Except.error e => (Except.error e, rangeOps)
  | Except.ok maxCurrent =>
    if ch ≥ 16 ∨ ch < 0 then (Except.error PyError.valueError, rangeOps)
    else if val < 0 ∨ val ≥ maxCurrent then
      (Except.error PyError.valueError, rangeOps)
    else
      let valDAC := encodeCurrent maxCurrent val
      (Except.ok dev.dacResponse,
        rangeOps ++ [Op.query ("$D" ++ fmt2 ch ++ "," ++ toString valDAC)])

/-- Embedding of `CurrentDriver.set_current_level(ch, val)`: fetches the
range (this queries the board), validates the channel and the DAC level and
sends the `$D` command with the level verbatim. -/
def set_current_level (dev : Device) (ch : ℤ) (val : ℤ) :
    Except PyError String × List Op :=
  match rangeResult dev with
  | Except.error e => (Except.error e, rangeOps)
  | Except.ok maxCurrent =>
    if ch ≥ 16 ∨ ch < 0 then (Except.error PyError.valueError, rangeOps)
    else if val < 0 ∨ val ≥ 2 ^ 16 then
      (Except.error PyError.valueError, rangeOps)
    else
      let _valmA := decodeLevel maxCurrent val
      (Except.ok dev.dacResponse,
        rangeOps ++ [Op.query ("$D" ++ fmt2 ch ++ "," ++ toString val)])

/-- Embedding of `CurrentDriver.close`: the body unconditionally calls
`self.inst.close()`, so every invocation performs a low-level close. -/
def close (_instClosed : Bool) : Bool × List Op :=
  (true, [Op.lowClose])

end Qlass

namespace Qontrol

/-- State of a `Q8iv` wrapper: whether `self._q` is not `None`, the init
mode (`"i"` or `"v"`), the detected channel count, the software compliance
limits, and the per-channel output currents held by the board. -/
structure State where
  qConnected : Bool
  initMode : String
  numChannels : ℕ
  imax : ℚ
  vmax : ℚ
  outputs : List ℚ
  deriving DecidableEq

/-- Write loop of `Q8iv.set_current`: `for ch, val in zip(chans, currents):
self._q.i[ch] = val`, each assignment updating one channel. -/
def writeAll (outputs : List ℚ) (pairs : List (ℤ × ℚ)) : List ℚ :=
  pairs.foldl (fun o p => o.set p.1.toNat p.2) outputs

/-- Embedding of `Q8iv.set_current(channel, current)` after `__to_list`
normalisation: mode check, then `__validate_chans_vals` (length, then
channel bounds), then the compliance check on all values, and only then the
per-channel writes. -/
def set_current (s : State) (chans : List ℤ) (vals : List ℚ) :
    Except PyError Unit × State :=
  if s.initMode ≠ "i" then (Except.error PyError.valueError, s)
  else if chans.length ≠ vals.length then (Except.error PyError.valueError, s)
  else if chans.any (fun c => ¬ (0 ≤ c ∧ c < (s.numChannels : ℤ))) then
    (Except.error PyError.valueError, s)
  else if vals.any (fun v => ¬ (0 ≤ v ∧ v ≤ s.imax)) then
    (Except.error PyError.valueError, s)
  else
    (Except.ok (), { s with outputs := writeAll s.outputs (chans.zip vals) })

/-- Embedding of `Q8iv.set_all_zero`: zeroes every output of the active
mode with a single slice write. -/
def set_all_zero (s : State) : State × List Op :=
  if s.initMode = "v" then (s, [Op.write "v[:] = 0.0"])
  else ({ s with outputs := s.outputs.map fun _ => 0 }, [Op.write "i[:] = 0.0"])

/-- Embedding of `Q8iv.close`: only when `self._q is not None` does it zero
the outputs and perform the low-level close, setting `self._q = None` in the
`finally` block; otherwise it only prints. The low-level qontrol close is
modelled as succeeding. -/
def close (s : State) : Except PyError Unit × State × List Op :=
  if s.qConnected then
    let z := set_all_zero s
    (Except.ok (), { z.1 with qConnected := false }, z.2 ++ [Op.lowClose])
  else (Except.ok (), s, [])

end Qontrol

namespace Afg

/-- State of an AFG3011C as seen through the VISA line: its raw replies to
the impedance, amplitude and offset queries. -/
structure Device where
  rawImpedance : String
  amplitude : ℚ
  offset : ℚ
  deriving DecidableEq

/-- Reply translation of `AFG3011C.get_output_impedance`: `"99.0e36"`
becomes `"INF"`, `"50e0"` becomes `"50"`, anything else passes through. -/
def translateImpedance (raw : String) : String :=
  if raw = "99.0e36" then "INF" else if raw = "50e0" then "50" else raw

/-- Class dictionary `__V_LIMIT = {"50": 10, "INF": 20}`; a key outside the
dictionary is a Python `KeyError`, hence the `Option`. -/
def vLimit (key : String) : Option ℚ :=
  if key = "50" then some 10 else if key = "INF" then some 20 else none

/-- Class dictionary `__AMPL_MIN = {"50": 20e-3, "INF": 40e-3}`. -/
def amplMin (key : String) : Option ℚ :=
  if key = "50" then some (1/50) else if key = "INF" then some (1/25) else none

/-- Embedding of `AFG3011C.set_offset(offset)`: fetches impedance and
amplitude live, looks up `__V_LIMIT[impedance]` (KeyError when absent), and
rejects when `offset ± amplitude/2` exceeds `±vlimit`. -/
def set_offset (dev : Device) (offset : ℚ) : Except PyError Unit × List Op :=
  let impedance := pyUpper (translateImpedance dev.rawImpedance)
  let ops := [Op.query "OUTP1:IMP?", Op.query "SOUR1:VOLT?"]
  let vpk := dev.amplitude / 2
  match vLimit impedance with
  | none => (Except.error PyError.keyError, ops)
  | some vlimit =>
    if offset + vpk > vlimit ∨ offset - vpk < -vlimit then
      (Except.error PyError.valueError, ops)
    else (Except.ok (), ops ++ [Op.write ("SOUR1:VOLT:OFFS " ++ toString offset)])

/-- Embedding of `AFG3011C.set_amplitude(ampl)`: fetches impedance live,
looks up `__AMPL_MIN[impedance]` (KeyError when absent), checks the minimum,
then fetches the offset and checks the combined voltage limit from
`__V_LIMIT[impedance]`. -/
def set_amplitude (dev : Device) (ampl : ℚ) : Except PyError Unit × List Op :=
  let impedance := pyUpper (translateImpedance dev.rawImpedance)
  let ops0 := [Op.query "OUTP1:IMP?"]
  match amplMin impedance with
  | none => (Except.error PyError.keyError, ops0)
  | some amin =>
    if ¬ (amin ≤ ampl) then (Except.error PyError.valueError, ops0)
    else
      let vpk := ampl / 2
      let ops1 := ops0 ++ [Op.query "SOUR1:VOLT:OFFS?"]
      match vLimit impedance with
      | none => (Except.error PyError.keyError, ops1)
      | some vlimit =>
        if dev.offset + vpk > vlimit ∨ dev.offset - vpk < -vlimit then
          (Except.error PyError.valueError, ops1)
        else (Except.ok (), ops1 ++ [Op.write ("SOUR1:VOLT " ++ toString ampl)])

end Afg

namespace Tbs

/-- Class set `__VERTICAL_SCALES` of `TBS2204B` (valid for gain 1). -/
def verticalScales : List ℚ :=
  [2/1000, 5/1000, 1/100, 2/100, 5/100, 1/10, 2/10, 5/10, 1, 2, 5]

/-- Semantics of the Python expression `self.__VERTICAL_SCALES/gain` inside
the error message of `set_channel_scale`: a `set` divided by a number has no
`__truediv__`, so evaluating it raises `TypeError` for every gain. -/
def setDivNumber (_s : List ℚ) (_g : ℚ) : Except PyError (List ℚ) :=
  Except.error PyError.typeError

/-- Embedding of `TBS2204B.set_channel_scale(channel, scale)`: channel
bounds check, live gain query, membership test of `scale * gain` in
`__VERTICAL_SCALES`; on failure the `ValueError` message is built from
`sorted(self.__VERTICAL_SCALES/gain)`, whose evaluation is `setDivNumber`. -/
def set_channel_scale (gain : ℚ) (channel : ℤ) (scale : ℚ) :
    Except PyError Unit × List Op :=
  if ¬ (1 ≤ channel ∧ channel ≤ 4) then (Except.error PyError.valueError, [])
  else
    let ops := [Op.query (":CH" ++ toString channel ++ ":PRO:GAIN?")]
    if scale * gain ∈ verticalScales then
      (Except.ok (),
        ops ++ [Op.write (":CH" ++ toString channel ++ ":SCA " ++ toString scale)])
    else
      match setDivNumber verticalScales gain with
      | Except.error e => (Except.error e, ops)
      | Except.ok _ => (Except.error PyError.valueError, ops)

end Tbs

namespace Osw

/-- Embedding of `LF_OSW.set_channel(channel)` for a switch whose parsed
`model_info['channels']` is `numChannels` and whose reply to the switching
command is `devResp`: bounds check `1 <= channel <= channels` before any
transmission, then the framed `OSW_OUT_XX` query and reply validation. -/
def set_channel (numChannels : ℤ) (devResp : String) (channel : ℤ) :
    Except PyError Unit × List Op :=
  if ¬ (1 ≤ channel ∧ channel ≤ numChannels) then
    (Except.error PyError.valueError, [])
  else
    let ops := [Op.query ("OSW_OUT_" ++ fmt2 channel)]
    if devResp = "OSW_OUT_OK" then (Except.ok (), ops)
    else if devResp = "OSW_OUT_OVERFLOW" then (Except.error PyError.valueError, ops)
    else (Except.error PyError.runtimeError, ops)

/-- Embedding of `LF_OSW.reset()`: sends `OSW_OUT_00` unconditionally and
validates the reply. -/
def reset (devResp : String) : Except PyError Unit × List Op :=
  let ops := [Op.query "OSW_OUT_00"]
  if devResp = "OSW_OUT_OK" then (Except.ok (), ops)
  else (Except.error PyError.runtimeError, ops)

end Osw

/-! Theorems. -/

/-- Helper: every FSR code maps to a positive compliance. -/
theorem ranges_pos (fsr : ℤ) : 0 < Qlass.ranges fsr := by
  unfold Qlass.ranges
  split
  · norm_num
  split <;> norm_num

/-- Helper: the DAC encoding of `set_current`, evaluated at full scale
47.72 mA and requested current 23.86 mA, is 32767. -/
theorem encode_half_scale : Qlass.encodeCurrent (4772/100) (2386/100) = 32767 := by
  unfold Qlass.encodeCurrent pytrunc
  norm_num

/-- Helper: the `range` property of a board reporting FSR code 2 returns
47.72 mA. -/
theorem rangeResult_fsr2 :
    Qlass.rangeResult ⟨2, "Done"⟩ = Except.ok (4772/100) := by
  unfold Qlass.rangeResult Qlass.ranges
  norm_num

/-- C4 (confirmed): with the 47.72 mA full-scale range active,
`set_current(ch=0, val=23.86)` encodes DAC level
`floor(23.86/47.72*65535) = 32767` and transmits it in the `$D` command,
while `set_current(ch=0, val=47.72)` raises ValueError because accepted
values satisfy `0 <= val < compliance` strictly. -/
theorem c4_half_scale_encoding :
    Qlass.encodeCurrent (4772/100) (2386/100) = 32767 ∧
    Qlass.set_current ⟨2, "Done"⟩ 0 (2386/100) =
      (Except.ok "Done", [Op.query "$F?", Op.flush, Op.query "$D00,32767"]) ∧
    (Qlass.set_current ⟨2, "Done"⟩ 0 (4772/100)).1 = Except.error PyError.valueError := by
  refine ⟨encode_half_scale, ?_, ?_⟩
  · simp only [Qlass.set_current, rangeResult_fsr2]
    rw [if_neg (by norm_num), if_neg (by norm_num), encode_half_scale]
    rfl
  · simp only [Qlass.set_current, rangeResult_fsr2]
    rw [if_neg (by norm_num), if_pos (Or.inr (le_refl (4772/100 : ℚ)))]

/-- C1 (counterexample): a call `set_current(ch=16, val=1)` on a board in
range 47.72 mA is rejected with ValueError, yet its transport transcript is
not empty: the `$F?` range query was transmitted before validation, against
the claim that no write or query reaches the transport during a rejected
call. -/
theorem c1_counterexample :
    (Qlass.set_current ⟨2, "Done"⟩ 16 1).1 = Except.error PyError.valueError ∧
    (Qlass.set_current ⟨2, "Done"⟩ 16 1).2 = [Op.query "$F?", Op.flush] ∧
    [Op.query "$F?", Op.flush] ≠ ([] : List Op) :=
  ⟨rfl, rfl, by decide⟩

/-- C1 (amended): for every channel outside `[0, 16)` and any value,
`set_current` and `set_current_level` reject with ValueError and transmit no
write and no `$D` command; the transcript of the rejected call is exactly
the `$F?` full-scale-range query (with its buffer flush) issued before
validation. -/
theorem c1_channel_rejection_transcript (dev : Qlass.Device) (ch : ℤ)
    (val : ℚ) (lvl : ℤ)
    (hfsr : dev.fsr = 0 ∨ dev.fsr = 1 ∨ dev.fsr = 2)
    (hch : ch ≥ 16 ∨ ch < 0) :
    Qlass.set_current dev ch val =
      (Except.error PyError.valueError, [Op.query "$F?", Op.flush]) ∧
    Qlass.set_current_level dev ch lvl =
      (Except.error PyError.valueError, [Op.query "$F?", Op.flush]) := by
  have hrr : Qlass.rangeResult dev = Except.ok (Qlass.ranges dev.fsr) := by
    unfold Qlass.rangeResult
    rw [if_pos hfsr]
  constructor
  · simp only [Qlass.set_current, hrr]
    rw [if_pos hch]
    rfl
  · simp only [Qlass.set_current_level, hrr]
    rw [if_pos hch]
    rfl

/-- C1 (witness): the amended statement evaluated at a board in the 2.77 mA
range and channel 16. -/
theorem c1_channel_rejection_transcript_witness :
    Qlass.set_current ⟨0, "Done"⟩ 16 0 =
      (Except.error PyError.valueError, [Op.query "$F?", Op.flush]) ∧
    Qlass.set_current_level ⟨0, "Done"⟩ 16 0 =
      (Except.error PyError.valueError, [Op.query "$F?", Op.flush]) :=
  c1_channel_rejection_transcript ⟨0, "Done"⟩ 16 0 0 (Or.inl rfl)
    (Or.inl (by norm_num))

/-- Helper: decoding DAC level 32767 at full scale 47.72 mA truncates to
23 mA. -/
theorem decode_level_32767 : Qlass.decodeLevel (4772/100) 32767 = 23 := by
  unfold Qlass.decodeLevel pytrunc
  norm_num

/-- C2 (counterexample): at full scale 47.72 mA the value 23.86 mA encodes
to level 32767, which decodes back to 23 mA, an error of 0.86 mA: far more
than one quantization step 47.72/65535 mA, because `set_current_level`
truncates the decoded current to an integer number of mA. -/
theorem c2_counterexample :
    0 ≤ (2386/100 : ℚ) ∧ (2386/100 : ℚ) < 4772/100 ∧
    ¬ |((Qlass.decodeLevel (4772/100) (Qlass.encodeCurrent (4772/100) (2386/100)) : ℤ) : ℚ)
        - 2386/100| ≤ (4772/100) / (2 ^ 16 - 1) := by
  refine ⟨by norm_num, by norm_num, ?_⟩
  rw [encode_half_scale, decode_level_32767]
  rw [abs_le]
  norm_num

/-- C2 (amended): for every full scale `F > 0` and value `0 <= v < F`, the
round trip through `set_current`'s encoding and `set_current_level`'s
decoding differs from `v` by strictly less than one quantization step
`F/(2^16-1)` plus 1 mA (the 1 mA coming from the integer truncation of the
decoded current). -/
theorem c2_roundtrip_error_bound (F v : ℚ) (hF : 0 < F) (hv0 : 0 ≤ v)
    (_hvF : v < F) :
    |((Qlass.decodeLevel F (Qlass.encodeCurrent F v) : ℤ) : ℚ) - v|
      < F / (2 ^ 16 - 1) + 1 := by
  have hM : (0:ℚ) < 2 ^ 16 - 1 := by norm_num
  have hx0 : 0 ≤ v / F * (2 ^ 16 - 1) :=
    mul_nonneg (div_nonneg hv0 hF.le) hM.le
  have henc : Qlass.encodeCurrent F v = Int.floor (v / F * (2 ^ 16 - 1)) := by
    unfold Qlass.encodeCurrent
    exact pytrunc_of_nonneg _ hx0
  have he0 : (0:ℤ) ≤ Int.floor (v / F * (2 ^ 16 - 1)) := Int.floor_nonneg.mpr hx0
  have hy0 : 0 ≤ ((Int.floor (v / F * (2 ^ 16 - 1)) : ℤ) : ℚ) * F / (2 ^ 16 - 1) := by
    apply div_nonneg _ hM.le
    exact mul_nonneg (by exact_mod_cast he0) hF.le
  have hdec : Qlass.decodeLevel F (Qlass.encodeCurrent F v)
      = Int.floor (((Int.floor (v / F * (2 ^ 16 - 1)) : ℤ) : ℚ) * F / (2 ^ 16 - 1)) := by
    rw [henc]
    unfold Qlass.decodeLevel
    exact pytrunc_of_nonneg _ hy0
  rw [hdec]
  have h1 : ((Int.floor (v / F * (2 ^ 16 - 1)) : ℤ) : ℚ) ≤ v / F * (2 ^ 16 - 1) :=
    Int.floor_le _
  have h2 : v / F * (2 ^ 16 - 1) - 1 < ((Int.floor (v / F * (2 ^ 16 - 1)) : ℤ) : ℚ) :=
    Int.sub_one_lt_floor _
  have h6 : v / F * (2 ^ 16 - 1) * F = v * (2 ^ 16 - 1) := by
    field_simp
  have h3 : ((Int.floor (v / F * (2 ^ 16 - 1)) : ℤ) : ℚ) * F / (2 ^ 16 - 1) ≤ v := by
    rw [div_le_iff₀ hM]
    have h7 := mul_le_mul_of_nonneg_right h1 hF.le
    rw [h6] at h7
    linarith
  have h4 : v - F / (2 ^ 16 - 1)
      < ((Int.floor (v / F * (2 ^ 16 - 1)) : ℤ) : ℚ) * F / (2 ^ 16 - 1) := by
    rw [lt_div_iff₀ hM]
    have h5 := mul_lt_mul_of_pos_right h2 hF
    rw [sub_mul, one_mul, h6] at h5
    have h8 : (v - F / (2 ^ 16 - 1)) * (2 ^ 16 - 1)
        = v * (2 ^ 16 - 1) - F := by
      field_simp
    rw [h8]
    linarith
  have hd1 : ((Int.floor (((Int.floor (v / F * (2 ^ 16 - 1)) : ℤ) : ℚ) * F / (2 ^ 16 - 1)) : ℤ) : ℚ)
      ≤ ((Int.floor (v / F * (2 ^ 16 - 1)) : ℤ) : ℚ) * F / (2 ^ 16 - 1) := Int.floor_le _
  have hd2 : ((Int.floor (v / F * (2 ^ 16 - 1)) : ℤ) : ℚ) * F / (2 ^ 16 - 1) - 1
      < ((Int.floor (((Int.floor (v / F * (2 ^ 16 - 1)) : ℤ) : ℚ) * F / (2 ^ 16 - 1)) : ℤ) : ℚ) :=
    Int.sub_one_lt_floor _
  rw [abs_sub_comm, abs_of_nonneg (by linarith)]
  linarith

/-- C2 (witness): the amended bound evaluated at full scale 47.72 mA and
requested current 23.86 mA. -/
theorem c2_roundtrip_error_bound_witness :
    |((Qlass.decodeLevel (4772/100) (Qlass.encodeCurrent (4772/100) (2386/100)) : ℤ) : ℚ)
        - 2386/100| < (4772/100) / (2 ^ 16 - 1) + 1 :=
  c2_roundtrip_error_bound (4772/100) (2386/100) (by norm_num) (by norm_num)
    (by norm_num)

/-- C9 (confirmed): for a valid channel `0 <= ch < 16` and a board with a
valid FSR code, `set_current_level` raises ValueError exactly when
`val < 0` or `val >= 2^16`, so it accepts the full-scale level 65535; this
level is exactly the encoding of the compliance current, which
`set_current` itself rejects because accepted currents are strictly below
the compliance. -/
theorem c9_level_range_inclusive (dev : Qlass.Device) (ch : ℤ) (val : ℤ)
    (hfsr : dev.fsr = 0 ∨ dev.fsr = 1 ∨ dev.fsr = 2)
    (hch0 : 0 ≤ ch) (hch : ch < 16) :
    ((Qlass.set_current_level dev ch val).1 = Except.error PyError.valueError ↔
      val < 0 ∨ val ≥ 2 ^ 16) ∧
    (Qlass.set_current_level dev ch 65535).1 = Except.ok dev.dacResponse ∧
    Qlass.encodeCurrent (Qlass.ranges dev.fsr) (Qlass.ranges dev.fsr) = 65535 ∧
    (Qlass.set_current dev ch (Qlass.ranges dev.fsr)).1 = Except.error PyError.valueError := by
  have hrr : Qlass.rangeResult dev = Except.ok (Qlass.ranges dev.fsr) := by
    unfold Qlass.rangeResult
    rw [if_pos hfsr]
  have hchneg : ¬ (ch ≥ 16 ∨ ch < 0) := by omega
  refine ⟨?_, ?_, ?_, ?_⟩
  · simp only [Qlass.set_current_level, hrr]
    rw [if_neg hchneg]
    by_cases hc : val < 0 ∨ val ≥ 2 ^ 16
    · rw [if_pos hc]
      exact iff_of_true rfl hc
    · rw [if_neg hc]
      exact iff_of_false (by simp) hc
  · simp only [Qlass.set_current_level, hrr]
    rw [if_neg hchneg, if_neg (by norm_num)]
  · have hF : 0 < Qlass.ranges dev.fsr := ranges_pos dev.fsr
    unfold Qlass.encodeCurrent
    rw [div_self hF.ne', one_mul, pytrunc_of_nonneg _ (by norm_num)]
    norm_num
  · simp only [Qlass.set_current, hrr]
    rw [if_neg hchneg, if_pos (Or.inr (le_refl (Qlass.ranges dev.fsr)))]

/-- C9 (witness): the statement evaluated at a board in the 47.72 mA range,
channel 0 and level 70000. -/
theorem c9_level_range_inclusive_witness :
    ((Qlass.set_current_level ⟨2, "Done"⟩ 0 70000).1 = Except.error PyError.valueError ↔
      (70000 : ℤ) < 0 ∨ (70000 : ℤ) ≥ 2 ^ 16) ∧
    (Qlass.set_current_level ⟨2, "Done"⟩ 0 65535).1 = Except.ok "Done" ∧
    Qlass.encodeCurrent (Qlass.ranges 2) (Qlass.ranges 2) = 65535 ∧
    (Qlass.set_current ⟨2, "Done"⟩ 0 (Qlass.ranges 2)).1 = Except.error PyError.valueError :=
  c9_level_range_inclusive ⟨2, "Done"⟩ 0 70000 (Or.inr (Or.inr rfl))
    (by norm_num) (by norm_num)

/-- C5 (confirmed): with the impedance mode fetched live and mapped through
`__V_LIMIT` (10 V for "50", 20 V for "INF"), `set_offset(offset)` raises
ValueError exactly when `offset + amplitude/2 > Vlimit` or
`offset - amplitude/2 < -Vlimit`, the amplitude being fetched live from the
device. -/
theorem c5_set_offset_joint_limit (raw : String) (ampl devoff off vlim : ℚ)
    (h : Afg.vLimit (pyUpper (Afg.translateImpedance raw)) = some vlim) :
    ((Afg.set_offset ⟨raw, ampl, devoff⟩ off).1 = Except.error PyError.valueError ↔
      off + ampl / 2 > vlim ∨ off - ampl / 2 < -vlim) ∧
    Afg.vLimit "50" = some 10 ∧ Afg.vLimit "INF" = some 20 := by
  refine ⟨?_, rfl, rfl⟩
  simp only [Afg.set_offset, h]
  by_cases hc : off + ampl / 2 > vlim ∨ off - ampl / 2 < -vlim
  · rw [if_pos hc]
    exact iff_of_true rfl hc
  · rw [if_neg hc]
    exact iff_of_false (by simp) hc

/-- C5 (witness): with impedance "50" (raw reply `50e0`, Vlimit 10 V) and
amplitude 2.0 Vpp fetched from the device, `set_offset(9.5)` raises
ValueError since `9.5 + 1.0 > 10`. -/
theorem c5_set_offset_joint_limit_witness :
    (Afg.set_offset ⟨"50e0", 2, 0⟩ (19/2)).1 = Except.error PyError.valueError :=
  ((c5_set_offset_joint_limit "50e0" 2 0 (19/2) 10 (by decide)).1).mpr
    (Or.inl (by norm_num))

/-- C10 (counterexample): the raw impedance reply `"inf"` translates to
`"inf"`, which is neither `"50"` nor `"INF"`, yet `set_amplitude` and
`set_offset` do not raise a KeyError: the `.upper()` call applied before the
table lookup turns `"inf"` into the valid key `"INF"`. -/
theorem c10_counterexample :
    Afg.translateImpedance "inf" ≠ "50" ∧
    Afg.translateImpedance "inf" ≠ "INF" ∧
    (Afg.set_amplitude ⟨"inf", 2, 0⟩ 1).1 = Except.ok () ∧
    (Afg.set_offset ⟨"inf", 2, 0⟩ 0).1 = Except.ok () := by
  refine ⟨by decide, by decide, ?_, ?_⟩
  · simp only [Afg.set_amplitude,
      show pyUpper (Afg.translateImpedance "inf") = "INF" from by decide,
      show Afg.amplMin "INF" = some (1/25) from rfl,
      show Afg.vLimit "INF" = some 20 from rfl]
    rw [if_neg (by norm_num), if_neg (by norm_num)]
  · simp only [Afg.set_offset,
      show pyUpper (Afg.translateImpedance "inf") = "INF" from by decide,
      show Afg.vLimit "INF" = some 20 from rfl]
    rw [if_neg (by norm_num)]

/-- C10 (amended): whenever the translated impedance reply, after the
`.upper()` call, is neither `"50"` nor `"INF"`, both `set_amplitude` and
`set_offset` fail with a KeyError from the `__AMPL_MIN` / `__V_LIMIT`
lookup, not with a ValueError. -/
theorem c10_unknown_impedance_keyerror (raw : String) (a o x y : ℚ)
    (h50 : pyUpper (Afg.translateImpedance raw) ≠ "50")
    (hinf : pyUpper (Afg.translateImpedance raw) ≠ "INF") :
    (Afg.set_amplitude ⟨raw, a, o⟩ x).1 = Except.error PyError.keyError ∧
    (Afg.set_offset ⟨raw, a, o⟩ y).1 = Except.error PyError.keyError := by
  have hmin : Afg.amplMin (pyUpper (Afg.translateImpedance raw)) = none := by
    unfold Afg.amplMin
    rw [if_neg h50, if_neg hinf]
  have hlim : Afg.vLimit (pyUpper (Afg.translateImpedance raw)) = none := by
    unfold Afg.vLimit
    rw [if_neg h50, if_neg hinf]
  constructor
  · simp only [Afg.set_amplitude, hmin]
  · simp only [Afg.set_offset, hlim]

/-- C10 (witness): the amended statement evaluated at the raw impedance
reply `"75"`. -/
theorem c10_unknown_impedance_keyerror_witness :
    (Afg.set_amplitude ⟨"75", 2, 0⟩ 1).1 = Except.error PyError.keyError ∧
    (Afg.set_offset ⟨"75", 2, 0⟩ 0).1 = Except.error PyError.keyError :=
  c10_unknown_impedance_keyerror "75" 2 0 1 0 (by decide) (by decide)

/-- C3 (code bug): for a valid channel with reported gain 1.0 and the
requested scale 3.0 V/div (so `scale * gain` is not a legal vertical
scale), `set_channel_scale` does not raise the documented descriptive
ValueError: building that error message evaluates
`sorted(self.__VERTICAL_SCALES/gain)`, a Python `set` divided by a number,
which raises TypeError instead; nothing is transmitted for the scale
change. -/
theorem c3_scale_error_message_typeerror :
    (3:ℚ) * 1 ∉ Tbs.verticalScales ∧
    Tbs.set_channel_scale 1 1 3 =
      (Except.error PyError.typeError, [Op.query ":CH1:PRO:GAIN?"]) := by
  have hmem : (3:ℚ) * 1 ∉ Tbs.verticalScales := by
    norm_num [Tbs.verticalScales]
  refine ⟨hmem, ?_⟩
  simp only [Tbs.set_channel_scale, Tbs.setDivNumber]
  rw [if_neg (by norm_num), if_neg hmem]
  rfl

/-- C8 (confirmed): on a 16-channel switch, `set_channel(17)` and
`set_channel(0)` are rejected with ValueError before any command is
transmitted (empty transcript), whatever the device would reply; channel 0
is only ever transmitted by `reset()`, whose transcript is the
`OSW_OUT_00` query. -/
theorem c8_switch_channel_bounds (devResp : String) :
    Osw.set_channel 16 devResp 17 = (Except.error PyError.valueError, []) ∧
    Osw.set_channel 16 devResp 0 = (Except.error PyError.valueError, []) ∧
    (Osw.reset devResp).2 = [Op.query "OSW_OUT_00"] := by
  refine ⟨?_, ?_, ?_⟩
  · unfold Osw.set_channel
    rw [if_pos (by norm_num)]
  · unfold Osw.set_channel
    rw [if_pos (by norm_num)]
  · simp only [Osw.reset]
    split <;> rfl

/-- C6 (counterexample): for the QLASS `CurrentDriver`, a second `close()`
after a successful first one still performs a low-level transport close
(the body calls `self.inst.close()` unconditionally), against the claim
that the second call performs no low-level close operation. -/
theorem c6_counterexample :
    (Qlass.close false).1 = true ∧
    (Qlass.close (Qlass.close false).1).2 = [Op.lowClose] ∧
    [Op.lowClose] ≠ ([] : List Op) :=
  ⟨rfl, rfl, by decide⟩

/-- C6 (amended): `Q8iv.close` is idempotent — after a successful close the
second call succeeds and performs no low-level operation, thanks to the
`self._q = None` sentinel — but `CurrentDriver.close` invokes the transport
close on every call, so its second call does attempt a second transport
close. -/
theorem c6_close_idempotence_split (s : Qontrol.State) (b : Bool)
    (h : s.qConnected = true) :
    (Qontrol.close (Qontrol.close s).2.1).1 = Except.ok () ∧
    (Qontrol.close (Qontrol.close s).2.1).2.2 = [] ∧
    (Qlass.close b).2 = [Op.lowClose] := by
  have h1 : (Qontrol.close s).2.1.qConnected = false := by
    unfold Qontrol.close
    rw [if_pos h]
  have h2 : Qontrol.close ((Qontrol.close s).2.1) =
      (Except.ok (), (Qontrol.close s).2.1, []) := by
    unfold Qontrol.close
    rw [if_neg]
    rw [Qontrol.close] at h1
    rw [h1]
    exact Bool.false_ne_true
  rw [h2]
  exact ⟨rfl, rfl, rfl⟩

/-- C6 (witness): the amended statement evaluated on a connected 8-channel
board in current mode. -/
theorem c6_close_idempotence_split_witness :
    (Qontrol.close (Qontrol.close ⟨true, "i", 8, 24, 12, [0, 0]⟩).2.1).1 = Except.ok () ∧
    (Qontrol.close (Qontrol.close ⟨true, "i", 8, 24, 12, [0, 0]⟩).2.1).2.2 = [] ∧
    (Qlass.close true).2 = [Op.lowClose] :=
  c6_close_idempotence_split ⟨true, "i", 8, 24, 12, [0, 0]⟩ true rfl

/-- C7 (confirmed): in current mode, if the channel and value lists differ
in length, or any channel index is outside `[0, num_channels)`, or any
value is outside `[0, imax]`, then `Q8iv.set_current` raises ValueError and
the state — in particular every channel output — is left unchanged: no
partial write happens. -/
theorem c7_set_current_no_partial_write (s : Qontrol.State)
    (chans : List ℤ) (vals : List ℚ) (hmode : s.initMode = "i")
    (hbad : chans.length ≠ vals.length ∨
      (∃ c ∈ chans, ¬ (0 ≤ c ∧ c < (s.numChannels : ℤ))) ∨
      (∃ v ∈ vals, v < 0 ∨ s.imax < v)) :
    Qontrol.set_current s chans vals = (Except.error PyError.valueError, s) := by
  unfold Qontrol.set_current
  rw [if_neg (by simp [hmode])]
  by_cases h1 : chans.length ≠ vals.length
  · rw [if_pos h1]
  · rw [if_neg h1]
    by_cases h2 : chans.any (fun c => ¬ (0 ≤ c ∧ c < (s.numChannels : ℤ))) = true
    · rw [if_pos h2]
    · rw [if_neg h2]
      have h3 : vals.any (fun v => ¬ (0 ≤ v ∧ v ≤ s.imax)) = true := by
        rcases hbad with h | h | h
        · exact absurd h h1
        · exfalso
          apply h2
          simp only [List.any_eq_true, decide_eq_true_eq]
          obtain ⟨c, hc, hnc⟩ := h
          exact ⟨c, hc, hnc⟩
        · simp only [List.any_eq_true, decide_eq_true_eq]
          obtain ⟨v, hv, hout⟩ := h
          refine ⟨v, hv, fun hin => ?_⟩
          rcases hout with h | h
          · exact absurd hin.1 (not_le.mpr h)
          · exact absurd hin.2 (not_le.mpr h)
      rw [if_pos h3]

/-- C7 (witness): a one-element call with value 25 mA against the default
24 mA compliance is rejected and the outputs are untouched. -/
theorem c7_set_current_no_partial_write_witness :
    Qontrol.set_current ⟨true, "i", 8, 24, 12, [1, 2]⟩ [0] [25] =
      (Except.error PyError.valueError, ⟨true, "i", 8, 24, 12, [1, 2]⟩) :=
  c7_set_current_no_partial_write ⟨true, "i", 8, 24, 12, [1, 2]⟩ [0] [25] rfl
    (Or.inr (Or.inr ⟨25, by simp, Or.inr (by norm_num)⟩))

/-- C8 (witness): the statement evaluated at the reply `OSW_OUT_OK`. -/
theorem c8_switch_channel_bounds_witness :
    Osw.set_channel 16 "OSW_OUT_OK" 17 = (Except.error PyError.valueError, []) ∧
    Osw.set_channel 16 "OSW_OUT_OK" 0 = (Except.error PyError.valueError, []) ∧
    (Osw.reset "OSW_OUT_OK").2 = [Op.query "OSW_OUT_00"] :=
  c8_switch_channel_bounds "OSW_OUT_OK"
